import Mathlib

/-!
Verification of the two core components of this repository:

* `SkipTagsAggregator` (src/pipecat/utils/text/skip_tags_aggregator.py): a
  tag-aware sentence aggregator.  Its two helpers `parse_start_end_tags` and
  `match_endofsentence` live in `pipecat.utils.string`, which is not part of
  the sources; they are modelled from the specification (a resumable
  two-state marker scanner, and a sentence-boundary detector).
* `LmntTTSService` (src/pipecat/services/lmnt/tts.py): a streaming synthesis
  session, embedded as a state machine over `SessionState` with an explicit
  failure oracle and an event trace for everything observable (frames
  yielded or pushed, transport sends, metrics calls, connect/disconnect).

Strings are modelled as `List Char` for the aggregator (Python slicing maps
to `List.take`/`List.drop`); Python truthiness of the integer returned by
the boundary detector maps to a `≠ 0` test, as in the source.
-/

namespace Pipecat

/-! ## Text aggregation: `skip_tags_aggregator.py` -/

/-- Embeds `StartEndTags` (from `pipecat.utils.string`): an ordered pair of
non-empty marker strings delimiting a span. -/
structure StartEndTags where
  start_tag : List Char
  end_tag : List Char
deriving DecidableEq, Repr

/-- Sentence terminator characters recognised by the modelled boundary
detector. -/
def isTerminator (c : Char) : Bool :=
  c = '.' || c = '!' || c = '?'

/-- Helper for `match_endofsentence`: returns the offset one past the first
sentence terminator that is followed by a space or ends the text, and `0`
when there is none.  `i` is the number of characters already consumed. -/
def findEos : List Char → Nat → Nat
  | [], _ => 0
  | [c], i => if isTerminator c then i + 1 else 0
  | c :: d :: rest, i =>
    if isTerminator c && (d = ' ') then i + 1 else findEos (d :: rest) (i + 1)

/-- Modelled from the spec: `match_endofsentence` (from `pipecat.utils.string`,
absent from the sources) — "locates the end of the first complete sentence in
`text`, if any, per natural-language punctuation rules".  Returns the offset
just past the boundary, `0` when no complete sentence is present (the source
treats the result with Python truthiness, so `0` means "no boundary"). -/
def match_endofsentence (text : List Char) : Nat :=
  findEos text 0

/-- A full occurrence of marker `m` starting at position `p` of `buf`. -/
def matchesAt (buf : List Char) (p : Nat) (m : List Char) : Bool :=
  ((buf.drop p).take m.length) == m

/-- The buffer ends mid-marker at position `p`: the visible suffix is shorter
than `m` but is a prefix of it, so the position is not yet proven free of a
marker occurrence and must be re-checked on the next call. -/
def partialAt (buf : List Char) (p : Nat) (m : List Char) : Bool :=
  decide ((buf.drop p).length < m.length) && (buf.drop p).isPrefixOf m

/-- Modelled from the spec: the resumable two-state marker scanner behind
`parse_start_end_tags` (from `pipecat.utils.string`, absent from the
sources).  Outside a tag it scans for the nearest occurrence of any
configured start marker and transitions to "inside" just after it; inside
tag `t` it scans only for `t`'s end marker.  The cursor is only advanced
past positions proven not to contain a marker start: if a chunk ends
mid-marker the scan stops at the overlap so it is re-checked on the next
call.  The fuel argument dominates the number of scan steps. -/
def scanTags (tags : List StartEndTags) :
    Nat → Option StartEndTags → List Char → Nat → Option StartEndTags × Nat
  | 0, cur, _, p => (cur, p)
  | fuel + 1, none, buf, p =>
    if p ≥ buf.length then (none, p)
    else
      match tags.find? (fun t => matchesAt buf p t.start_tag) with
      | some t => scanTags tags fuel (some t) buf (p + t.start_tag.length)
      | none =>
        if tags.any (fun t => partialAt buf p t.start_tag) then (none, p)
        else scanTags tags fuel none buf (p + 1)
  | fuel + 1, some t, buf, p =>
    if p ≥ buf.length then (some t, p)
    else if matchesAt buf p t.end_tag then
      scanTags tags fuel none buf (p + t.end_tag.length)
    else if partialAt buf p t.end_tag then (some t, p)
    else scanTags tags fuel (some t) buf (p + 1)

/-- Modelled from the spec: `parse_start_end_tags(text, tags, current_tag,
current_tag_index)` resumes the scan of `text` from `current_tag_index` in
state `current_tag` and returns the new state and cursor. -/
def parse_start_end_tags (text : List Char) (tags : List StartEndTags)
    (current_tag : Option StartEndTags) (current_tag_index : Nat) :
    Option StartEndTags × Nat :=
  scanTags tags (text.length + 1) current_tag text current_tag_index

/-- Embeds the state of `SkipTagsAggregator`: the buffered text, the
configured tag pairs, the currently open tag (if any) and the scan cursor. -/
structure SkipTagsAggregator where
  _text : List Char
  _tags : List StartEndTags
  _current_tag : Option StartEndTags
  _current_tag_index : Nat
deriving DecidableEq, Repr

/-- Embeds `SkipTagsAggregator.__init__(tags)`. -/
def initAgg (tags : List StartEndTags) : SkipTagsAggregator :=
  ⟨[], tags, none, 0⟩

/-- Embeds `SkipTagsAggregator.aggregate` (lines 54-86): append the chunk to
the buffer, rescan for tags, and if no tag is open emit the buffer prefix up
to the first sentence boundary (Python truthiness: a `0` offset means no
boundary). -/
def aggregate (self : SkipTagsAggregator) (text : List Char) :
    SkipTagsAggregator × Option (List Char) :=
  let buf := self._text ++ text
  match parse_start_end_tags buf self._tags self._current_tag self._current_tag_index with
  | (none, cidx) =>
    let eos := match_endofsentence buf
    if eos ≠ 0 then
      ({ self with _text := buf.drop eos, _current_tag := none, _current_tag_index := cidx },
        some (buf.take eos))
    else
      ({ self with _text := buf, _current_tag := none, _current_tag_index := cidx }, none)
  | (some t, cidx) =>
    ({ self with _text := buf, _current_tag := some t, _current_tag_index := cidx }, none)

/-- Embeds `SkipTagsAggregator.handle_interruption` (lines 88-94): the body
is exactly `self._text = ""`; the tag state is left untouched. -/
def handle_interruption (self : SkipTagsAggregator) : SkipTagsAggregator :=
  { self with _text := [] }

/-- Embeds `SkipTagsAggregator.reset` (lines 96-102): the body is exactly
`self._text = ""`; the tag state is left untouched. -/
def resetAgg (self : SkipTagsAggregator) : SkipTagsAggregator :=
  { self with _text := [] }

/-- Runs a sequence of `aggregate` calls, collecting the emitted units. -/
def runAggregate : SkipTagsAggregator → List (List Char) →
    SkipTagsAggregator × List (List Char)
  | st, [] => (st, [])
  | st, c :: cs =>
    let r := aggregate st c
    let rest := runAggregate r.1 cs
    (rest.1, r.2.toList ++ rest.2)

/-! ## Language mapping: `tts.py` lines 40-81 -/

/-- Modelled from the spec: the external `Language` configuration enum
(`pipecat.transcriptions.language`, absent from the sources) is a
string-valued enum; a member is identified by its string value (e.g. `en`,
`es-ES`). -/
structure Language where
  value : String
deriving DecidableEq, Repr

/-- Embeds the `BASE_LANGUAGES` table of `language_to_lmnt_language`
(lines 49-69): the 19 supported base languages and their LMNT codes. -/
def BASE_LANGUAGES : List (Language × String) :=
  [(⟨"de"⟩, "de"), (⟨"en"⟩, "en"), (⟨"es"⟩, "es"), (⟨"fr"⟩, "fr"),
   (⟨"hi"⟩, "hi"), (⟨"id"⟩, "id"), (⟨"it"⟩, "it"), (⟨"ja"⟩, "ja"),
   (⟨"ko"⟩, "ko"), (⟨"nl"⟩, "nl"), (⟨"pl"⟩, "pl"), (⟨"pt"⟩, "pt"),
   (⟨"ru"⟩, "ru"), (⟨"sv"⟩, "sv"), (⟨"th"⟩, "th"), (⟨"tr"⟩, "tr"),
   (⟨"uk"⟩, "uk"), (⟨"vi"⟩, "vi"), (⟨"zh"⟩, "zh")]

/-- Python truthiness of an optional string (`if not result:`): falsy when
`None` or the empty string. -/
def optStrTruthy (r : Option String) : Bool :=
  match r with
  | none => false
  | some s => !(s == "")

/-- Embeds `language_to_lmnt_language` (lines 40-81): look the member up in
the base table; if that is falsy, take the part of the value before the
first `-`, lowercase it, and return it when it is one of the table's codes,
else `None`. -/
def language_to_lmnt_language (language : Language) : Option String :=
  let result := BASE_LANGUAGES.lookup language
  if optStrTruthy result then result
  else
    let lang_str := language.value
    let base_code := ((lang_str.splitOn ("-")).headD ("")).toLower
    if (BASE_LANGUAGES.map Prod.snd).contains base_code then some base_code
    else none

/-- The characterization claimed for `language_to_lmnt_language`: the mapped
code when the member is a key of the table, otherwise the lowercased part of
the value before the first `-` when that is one of the table's codes,
otherwise `None`. -/
def lmntLanguageClaimed (language : Language) : Option String :=
  if (BASE_LANGUAGES.map Prod.fst).contains language then
    BASE_LANGUAGES.lookup language
  else
    let base := (((language.value).splitOn ("-")).headD ("")).toLower
    if (BASE_LANGUAGES.map Prod.snd).contains base then some base else none

/-- Concrete tag pair used by witnesses and counterexamples. -/
def tagA : StartEndTags := ⟨"<a>".toList, "</a>".toList⟩

/-- Concrete tag configuration used by witnesses and counterexamples. -/
def tagsA : List StartEndTags := [tagA]

/-! ## Aggregator lemmas -/

/-- One `aggregate` call conserves text: the emitted unit (if any) followed
by the new buffer is the old buffer plus the chunk. -/
theorem aggregate_concat (st : SkipTagsAggregator) (c : List Char) :
    ((aggregate st c).2.toList.flatten) ++ (aggregate st c).1._text = st._text ++ c := by
  unfold aggregate
  rcases hpr : parse_start_end_tags (st._text ++ c) st._tags st._current_tag
    st._current_tag_index with ⟨ctag, cidx⟩
  rcases ctag with _ | t
  · by_cases he : match_endofsentence (st._text ++ c) = 0 <;>
      simp [hpr, he, List.take_append_drop]
  · simp [hpr]

/-- A run of `aggregate` calls conserves text: the concatenation of all
emitted units followed by the final buffer is the initial buffer plus the
concatenation of all chunks. -/
theorem runAggregate_concat :
    ∀ (chunks : List (List Char)) (st : SkipTagsAggregator),
      (runAggregate st chunks).2.flatten ++ (runAggregate st chunks).1._text
        = st._text ++ chunks.flatten
  | [], st => by simp [runAggregate]
  | c :: cs, st => by
    have h1 := aggregate_concat st c
    have ih := runAggregate_concat cs (aggregate st c).1
    simp only [runAggregate, List.flatten_cons, List.flatten_append, List.append_assoc]
    rw [ih, ← List.append_assoc, h1, List.append_assoc]

/-- The modelled boundary detector reports an offset within the text. -/
theorem findEos_le : ∀ (l : List Char) (i : Nat), findEos l i ≤ i + l.length
  | [], i => by simp [findEos]
  | [c], i => by
    simp only [findEos, List.length_cons, List.length_nil]
    split <;> omega
  | c :: d :: rest, i => by
    have ih := findEos_le (d :: rest) (i + 1)
    simp only [findEos, List.length_cons] at ih ⊢
    split
    · omega
    · omega

/-- The modelled boundary detector reports an offset within the text. -/
theorem match_endofsentence_le (l : List Char) : match_endofsentence l ≤ l.length := by
  simpa [match_endofsentence] using findEos_le l 0

/-- Every unit emitted by `aggregate` ends exactly at the boundary offset the
detector reports for the buffer it was cut from, and that offset is nonzero. -/
theorem aggregate_emit (st : SkipTagsAggregator) (c u : List Char)
    (h : (aggregate st c).2 = some u) :
    u.length = match_endofsentence (st._text ++ c)
      ∧ match_endofsentence (st._text ++ c) ≠ 0 := by
  unfold aggregate at h
  rcases hpr : parse_start_end_tags (st._text ++ c) st._tags st._current_tag
    st._current_tag_index with ⟨ctag, cidx⟩
  simp only [hpr] at h
  rcases ctag with _ | t
  · by_cases he : match_endofsentence (st._text ++ c) = 0
    · simp [he] at h
    · simp only [he, ne_eq, not_false_iff, if_true, Option.some.injEq] at h
      refine ⟨?_, he⟩
      rw [← h, List.length_take]
      exact Nat.min_eq_left (match_endofsentence_le _)
  · simp at h

/-! ## Aggregator claims -/

/-- Claim C1 (refuted: code bug).  With tag pair `<a>`/`</a>`, the single
call `aggregate("<a>hey. yes</a> done.")` on a fresh aggregator emits
`"<a>hey."`: the text between the start marker and its matching end marker
is emitted in two pieces, split at the sentence terminator inside the span.
Once the pair has closed, the source searches the whole buffer for an end of
sentence and never excludes the closed span, contradicting the claim and
the class's own docstring. -/
theorem c1_tagged_span_split :
    (aggregate (initAgg tagsA) ("<a>hey. yes</a> done.".toList)).2
        = some ("<a>hey.".toList)
      ∧ (aggregate (initAgg tagsA) ("<a>hey. yes</a> done.".toList)).1._text
        = " yes</a> done.".toList
      ∧ tagA.start_tag <:+: "<a>hey.".toList
      ∧ ¬ tagA.end_tag <:+: "<a>hey.".toList
      ∧ tagA.end_tag <:+: " yes</a> done.".toList := by
  decide

/-- Claim C2 (refuted: code bug).  `reset` (and `handle_interruption`) clear
only `_text`; `_current_tag`/`_current_tag_index` survive.  After opening a
tag with `aggregate("<a>x")` and then calling `reset`, the next call
`aggregate("hello. ")` returns `None` (the stale state still claims to be
inside the tag), while a freshly constructed aggregator with the same tags
returns `"hello."`. -/
theorem c2_reset_keeps_tag_state :
    (aggregate (resetAgg (aggregate (initAgg tagsA) ("<a>x".toList)).1)
        ("hello. ".toList)).2 = none
      ∧ (aggregate (initAgg tagsA) ("hello. ".toList)).2 = some ("hello.".toList)
      ∧ (resetAgg (aggregate (initAgg tagsA) ("<a>x".toList)).1)._current_tag = some tagA
      ∧ (handle_interruption (aggregate (initAgg tagsA) ("<a>x".toList)).1)._current_tag
        = some tagA
      ∧ (initAgg tagsA)._current_tag = none := by
  decide

/-- Claim C5: for chunks whose concatenation contains no start marker, the
concatenation of all emitted units followed by the final buffer reproduces
the input exactly, and every emitted unit ends exactly at the boundary
offset the detector reports for the buffer it was cut from. -/
theorem c5_no_tags_concat (tags : List StartEndTags) (chunks : List (List Char))
    (st : SkipTagsAggregator) (c u : List Char)
    (_hmarks : ∀ t ∈ tags, ¬ t.start_tag <:+: chunks.flatten) :
    ((runAggregate (initAgg tags) chunks).2.flatten
        ++ (runAggregate (initAgg tags) chunks).1._text = chunks.flatten)
      ∧ ((aggregate st c).2 = some u →
          u.length = match_endofsentence (st._text ++ c)
            ∧ match_endofsentence (st._text ++ c) ≠ 0) := by
  refine ⟨?_, fun h => aggregate_emit st c u h⟩
  simpa [initAgg] using runAggregate_concat chunks (initAgg tags)

/-- Witness for C5 at a concrete split of `"Hi. there. "`. -/
theorem c5_no_tags_concat_witness :
    ((runAggregate (initAgg tagsA) [("Hi".toList), (". there. ".toList)]).2.flatten
        ++ (runAggregate (initAgg tagsA) [("Hi".toList), (". there. ".toList)]).1._text
        = [("Hi".toList), (". there. ".toList)].flatten)
      ∧ (("Hi. ".toList).take 3).length = match_endofsentence ((initAgg tagsA)._text ++ "Hi. ".toList)
      ∧ match_endofsentence ((initAgg tagsA)._text ++ "Hi. ".toList) ≠ 0 := by
  have h := c5_no_tags_concat tagsA [("Hi".toList), (". there. ".toList)]
    (initAgg tagsA) ("Hi. ".toList) (("Hi. ".toList).take 3) (by decide)
  exact ⟨h.1, h.2 (by decide)⟩

/-! ## Language mapping claim -/

/-- An association-list lookup guarded by Python truthiness agrees with a
key-membership test whenever no value in the table is the empty string. -/
theorem lookup_truthy_eq :
    ∀ (xs : List (Language × String)) (l : Language) (fb : Option String),
      (∀ p ∈ xs, ¬ p.2 = "") →
      (if optStrTruthy (xs.lookup l) then xs.lookup l else fb)
        = if (xs.map Prod.fst).contains l then xs.lookup l else fb
  | [], l, fb, _ => by simp [optStrTruthy]
  | (a, b) :: xs, l, fb, hv => by
    have hb : ¬ b = "" := hv (a, b) (List.mem_cons_self _ _)
    have ih := lookup_truthy_eq xs l fb (fun p hp => hv p (List.mem_cons_of_mem _ hp))
    by_cases hl : l = a
    · subst hl
      simp [List.lookup, optStrTruthy, hb]
    · have hba : (l == a) = false := by simp [hl]
      simp only [List.lookup, List.map_cons, List.contains_cons, hba, Bool.false_or]
      exact ih

/-- Claim C10: `language_to_lmnt_language` returns the mapped code for the
table's 19 base members, otherwise the lowercased part of the member's value
before the first `-` when that equals one of the table's codes, and `None`
in all other cases (the characterization `lmntLanguageClaimed`). -/
theorem c10_language_mapping (l : Language) :
    language_to_lmnt_language l = lmntLanguageClaimed l := by
  unfold language_to_lmnt_language lmntLanguageClaimed
  exact lookup_truthy_eq BASE_LANGUAGES l _ (by decide)

/-! ## Synthesis session: `tts.py`

The session is a state machine.  External collaborators (the websocket
transport, the metrics sink, the task manager) are driven by a failure
oracle: a list of booleans consumed one per fallible primitive call
(`websocket_connect`, `ws.send`, `ws.close`, `start_ttfb_metrics`,
`start_tts_usage_metrics`); `true` means the call raises, an exhausted
oracle means success.  Every observable action is recorded in an event
trace. -/

/-- The transport's connection states (`websockets.protocol.State`). -/
inductive WsState
  | OPEN
  | CLOSING
  | CLOSED
deriving DecidableEq, Repr

/-- A transport handle (`self._websocket`). -/
structure Ws where
  state : WsState
deriving DecidableEq, Repr

/-- The configuration resolved by `__init__` (lines 92-127). -/
structure Config where
  api_key : String
  voice_id : String
  model_name : String
  sample_rate : Nat
  language : Option String
  format : String
deriving DecidableEq, Repr

/-- The initialization message of `_connect_websocket` (lines 210-217): it
carries exactly the credential, voice, format, sample-rate, language and
model fields. -/
structure InitMsg where
  api_key : String
  voice : String
  format : String
  sample_rate : Nat
  language : Option String
  model : String
deriving DecidableEq, Repr

/-- Messages sent over the transport. -/
inductive Msg
  | init (m : InitMsg)
  | text (s : String)
  | flush
deriving DecidableEq, Repr

/-- Frames passed to `push_frame` (the overridden dispatcher, lines
175-184). -/
inductive PFrame
  | ttsStoppedF
  | startInterruptionF
  | audioF (sample_rate : Nat)
  | otherF
deriving DecidableEq, Repr

/-- Observable events, in program order: frames yielded by `run_tts`
(`ttsStarted`, `ttsStopped`), frames pushed downstream, transport activity,
metrics calls, task management, and entry markers for `_connect`,
`_disconnect` and the send-failure handler. -/
inductive Ev
  | ttsStarted
  | ttsStopped
  | framePushed (f : PFrame)
  | sent (m : Msg)
  | wsConnectAttempt
  | closeCalled
  | connectionError (detail : String)
  | connectCalled
  | disconnectCalled
  | wsDisconnected
  | ttfbStarted
  | ttfbStopped
  | usageRecorded (t : String)
  | stopAllMetricsEv
  | taskCreated
  | taskCancelled
  | errorPushed
  | sendErrorLogged
  | exnLogged
deriving DecidableEq, Repr

/-- The mutable fields of `LmntTTSService` relevant to the claims. -/
structure SessionState where
  cfg : Config
  websocket : Option Ws
  started : Bool
  receive_task : Option Unit
deriving DecidableEq, Repr

/-- Session state plus the failure oracle for the remaining primitive
calls. -/
structure Sys where
  st : SessionState
  oracle : List Bool
deriving DecidableEq, Repr

/-- Consume one oracle entry: `true` means the primitive call raises. -/
def takeO (s : Sys) : Bool × Sys :=
  match s.oracle with
  | [] => (false, s)
  | b :: r => (b, { s with oracle := r })

/-- Embeds `__init__` (lines 92-127): idle session, `started = False`, no
receive task, no websocket; `settings` carry the converted language and the
fixed `"raw"` format. -/
def initSession (c : Config) : SessionState :=
  ⟨c, none, false, none⟩

/-- A fresh system from a configuration and an oracle. -/
def initSys (c : Config) (o : List Bool) : Sys :=
  ⟨initSession c, o⟩

/-- The initialization message built from the settings (lines 210-217). -/
def initMsgOf (c : Config) : InitMsg :=
  ⟨c.api_key, c.voice_id, c.format, c.sample_rate, c.language, c.model_name⟩

/-- Embeds the connect-and-initialize body of `_connect_websocket` (lines
209-228) together with its exception handler: connect the transport
(fallible), then send the initialization message (fallible); on any failure,
clear the handle and fire the `on_connection_error` event with the failure
detail. -/
def connectWebsocketBody (s : Sys) : Sys × List Ev :=
  let (b1, s1) := takeO s
  if b1 then
    ({ s1 with st := { s1.st with websocket := none } },
      [Ev.wsConnectAttempt, Ev.connectionError ("connection error")])
  else
    let s2 : Sys := { s1 with st := { s1.st with websocket := some ⟨WsState.OPEN⟩ } }
    let (b2, s3) := takeO s2
    if b2 then
      ({ s3 with st := { s3.st with websocket := none } },
        [Ev.wsConnectAttempt, Ev.connectionError ("send error")])
    else (s3, [Ev.wsConnectAttempt, Ev.sent (Msg.init (initMsgOf s3.st.cfg))])

/-- Embeds `_connect_websocket` (lines 201-228): if a websocket is present
and `OPEN`, return immediately; otherwise run the connect body. -/
def connectWebsocket (s : Sys) : Sys × List Ev :=
  match s.st.websocket with
  | some w =>
    if w.state = WsState.OPEN then (s, []) else connectWebsocketBody s
  | none => connectWebsocketBody s

/-- Embeds `_connect` (lines 186-191): connect the websocket, then create
the receive task when a websocket is present and no task exists. -/
def connectStep (s : Sys) : Sys × List Ev :=
  let r := connectWebsocket s
  match r.1.st.websocket, r.1.st.receive_task with
  | some _, none =>
    ({ r.1 with st := { r.1.st with receive_task := some () } },
      Ev.connectCalled :: r.2 ++ [Ev.taskCreated])
  | _, _ => (r.1, Ev.connectCalled :: r.2)

/-- Embeds `_disconnect_websocket` (lines 230-245): try to stop all metrics
and close the websocket if present; any failure is logged and swallowed; the
`finally` block unconditionally sets `started = False` and clears the
handle. -/
def disconnectWebsocket (s : Sys) : Sys × List Ev :=
  let r : Sys × List Ev :=
    match s.st.websocket with
    | some _ =>
      let (b, sa) := takeO s
      if b then (sa, [Ev.stopAllMetricsEv, Ev.closeCalled, Ev.exnLogged])
      else (sa, [Ev.stopAllMetricsEv, Ev.closeCalled])
    | none => (s, [Ev.stopAllMetricsEv])
  ({ r.1 with st := { r.1.st with started := false, websocket := none } },
    r.2 ++ [Ev.wsDisconnected])

/-- Embeds `_disconnect` (lines 193-199): cancel the receive task if any,
then disconnect the websocket. -/
def disconnectStep (s : Sys) : Sys × List Ev :=
  let r : Sys × List Ev :=
    match s.st.receive_task with
    | some _ => ({ s with st := { s.st with receive_task := none } }, [Ev.taskCancelled])
    | none => (s, [])
  let r2 := disconnectWebsocket r.1
  (r2.1, Ev.disconnectCalled :: r.2 ++ r2.2)

/-- Embeds `_get_websocket().send(m)` (lines 247-251 and the send sites):
raises when no websocket is held, otherwise performs a fallible send. -/
def getWsSend (m : Msg) (s : Sys) : Sys × List Ev × Option String :=
  match s.st.websocket with
  | none => (s, [], some ("Websocket not connected"))
  | some _ =>
    let (b, s1) := takeO s
    if b then (s1, [], some ("send error")) else (s1, [Ev.sent m], none)

/-- Embeds `run_tts` lines 300-303: when no turn is active, start the TTFB
metric, yield a `TTSStartedFrame` and set `started = True`. -/
def startedPhase (s : Sys) : Sys × List Ev × Option String :=
  if s.st.started then (s, [], none)
  else
    let (b, s1) := takeO s
    if b then (s1, [], some ("metrics error"))
    else ({ s1 with st := { s1.st with started := true } },
      [Ev.ttfbStarted, Ev.ttsStarted], none)

/-- Embeds `run_tts` line 309: record usage metrics (fallible). -/
def usagePhase (text : String) (s : Sys) : Sys × List Ev × Option String :=
  let (b, s1) := takeO s
  if b then (s1, [], some ("metrics error"))
  else (s1, [Ev.usageRecorded text], none)

/-- Embeds the inner `try` of `run_tts` (lines 299-309): turn start, the
text-append send, the flush send, usage metrics; the first raise aborts the
sequence. -/
def runTTSInner (text : String) (s : Sys) : Sys × List Ev × Option String :=
  match startedPhase s with
  | (sa, ta, some e) => (sa, ta, some e)
  | (sa, ta, none) =>
    match getWsSend (Msg.text text) sa with
    | (sb, tb, some e) => (sb, ta ++ tb, some e)
    | (sb, tb, none) =>
      match getWsSend Msg.flush sb with
      | (sc, tc, some e) => (sc, ta ++ tb ++ tc, some e)
      | (sc, tc, none) =>
        match usagePhase text sc with
        | (sd, td, e) => (sd, ta ++ tb ++ tc ++ td, e)

/-- Embeds `run_tts` lines 299-315 (the inner `try` with its `except`
handler): on any exception in the send sequence, log the send error, yield a
`TTSStoppedFrame`, `_disconnect()` then `_connect()`, and return without
raising. -/
def runTTSAfter (text : String) (s1 : Sys) : Sys × List Ev :=
  match runTTSInner text s1 with
  | (s2, t2, some _) =>
    let r3 := disconnectStep s2
    let r4 := connectStep r3.1
    (r4.1, t2 ++ [Ev.sendErrorLogged, Ev.ttsStopped] ++ r3.2 ++ r4.2)
  | (s2, t2, none) => (s2, t2)

/-- Embeds `run_tts` lines 296-297: `_connect()` when the websocket is
absent or reports `CLOSED`. -/
def reconnectIfNeeded (s : Sys) : Sys × List Ev :=
  match s.st.websocket with
  | none => connectStep s
  | some w => if w.state = WsState.CLOSED then connectStep s else (s, [])

/-- Embeds `run_tts` (lines 283-319): reconnect when the websocket is absent
or `CLOSED`, then run the send sequence with its recovery handler. -/
def runTTSStep (text : String) (s : Sys) : Sys × List Ev :=
  let r1 := reconnectIfNeeded s
  let r2 := runTTSAfter text r1.1
  (r2.1, r1.2 ++ r2.2)

/-- Embeds `push_frame` (lines 175-184): push downstream, then force
`started = False` on a `TTSStoppedFrame` or `StartInterruptionFrame`. -/
def pushFrameStep (f : PFrame) (s : Sys) : Sys × List Ev :=
  let s' :=
    if f = PFrame.ttsStoppedF ∨ f = PFrame.startInterruptionF then
      { s with st := { s.st with started := false } }
    else s
  (s', [Ev.framePushed f])

/-- Embeds the error branch of `_receive_messages` (lines 271-279), the way
the receive loop terminates on a remote error message: push a
`TTSStoppedFrame` through `push_frame`, stop all metrics, push the error
upstream, and return (the task reference itself is not cleared here). -/
def recvErrorStep (s : Sys) : Sys × List Ev :=
  let r := pushFrameStep PFrame.ttsStoppedF s
  (r.1, r.2 ++ [Ev.stopAllMetricsEv, Ev.errorPushed])

/-- Embeds the audio branch of `_receive_messages` (lines 262-270): stop the
TTFB metric and push an audio frame with the configured sample rate. -/
def recvAudioStep (s : Sys) : Sys × List Ev :=
  let r := pushFrameStep (PFrame.audioF s.st.cfg.sample_rate) s
  (r.1, Ev.ttfbStopped :: r.2)

/-- The session operations whose interleavings the claims quantify over. -/
inductive Op
  | connect
  | disconnect
  | runTTS (text : String)
  | pushFrame (f : PFrame)
  | recvError
  | recvAudio
deriving DecidableEq, Repr

/-- One session operation. -/
def opStep : Op → Sys → Sys × List Ev
  | Op.connect, s => connectStep s
  | Op.disconnect, s => disconnectStep s
  | Op.runTTS t, s => runTTSStep t s
  | Op.pushFrame f, s => pushFrameStep f s
  | Op.recvError, s => recvErrorStep s
  | Op.recvAudio, s => recvAudioStep s

/-- Run a sequence of session operations, concatenating the traces. -/
def runOps : List Op → Sys → Sys × List Ev
  | [], s => (s, [])
  | op :: ops, s =>
    let r := opStep op s
    let rest := runOps ops r.1
    (rest.1, r.2 ++ rest.2)

/-- How a trace event moves the `started` flag: `TTSStartedFrame` yields set
it, the `finally` of `_disconnect_websocket` clears it, and pushing a
`TTSStoppedFrame` or `StartInterruptionFrame` clears it. -/
def flagStep (b : Bool) (e : Ev) : Bool :=
  match e with
  | Ev.ttsStarted => true
  | Ev.wsDisconnected => false
  | Ev.framePushed PFrame.ttsStoppedF => false
  | Ev.framePushed PFrame.startInterruptionF => false
  | _ => b

/-- The `started` flag after a trace. -/
def flagRun (b : Bool) (tr : List Ev) : Bool :=
  tr.foldl flagStep b

/-- The automaton of claim C4: accepts a trace iff every `ttsStarted` event
occurs while the flag is `false`, i.e. a turn-started event is emitted at
most once between a `false → true` transition and the next forced reset. -/
def startedOnce : Bool → List Ev → Bool
  | _, [] => true
  | b, e :: tr =>
    (if e = Ev.ttsStarted then !b else true) && startedOnce (flagStep b e) tr

/-- Events counted by claim C3: the turn-stopped yield, and entry into
`_disconnect` and `_connect`. -/
def c3Filter : Ev → Bool
  | Ev.ttsStopped => true
  | Ev.disconnectCalled => true
  | Ev.connectCalled => true
  | _ => false

/-- Transport send events (claim C9). -/
def isSendEv : Ev → Bool
  | Ev.sent _ => true
  | _ => false

/-- The strengthened session invariant of claim C6: the receive task exists
only while the websocket handle does, `started` only while a connection is
live, and a held handle is always `OPEN` (handles are only ever created
open and are dropped on close). -/
def sessionInvFull (st : SessionState) : Bool :=
  (st.receive_task.isNone || st.websocket.isSome)
    && (!st.started || st.websocket.isSome)
    && (match st.websocket with
        | some w => decide (w.state = WsState.OPEN)
        | none => true)

/-! ## Session trace lemmas -/

/-- `flagRun` distributes over trace concatenation. -/
theorem flagRun_append (b : Bool) (t1 t2 : List Ev) :
    flagRun b (t1 ++ t2) = flagRun (flagRun b t1) t2 := by
  simp [flagRun, List.foldl_append]

/-- Unfolding `flagRun` one event at a time. -/
theorem flagRun_cons (b : Bool) (e : Ev) (tr : List Ev) :
    flagRun b (e :: tr) = flagRun (flagStep b e) tr := rfl

/-- `flagRun` on the empty trace. -/
theorem flagRun_nil (b : Bool) : flagRun b [] = b := rfl

/-- `startedOnce` distributes over trace concatenation. -/
theorem startedOnce_append : ∀ (t1 t2 : List Ev) (b : Bool),
    startedOnce b (t1 ++ t2) = (startedOnce b t1 && startedOnce (flagRun b t1) t2)
  | [], t2, b => by simp [startedOnce, flagRun]
  | e :: t1, t2, b => by
    have ih := startedOnce_append t1 t2 (flagStep b e)
    simp only [List.cons_append, startedOnce, flagRun_cons, List.append_eq]
    simp only [List.append_eq] at ih
    rw [ih, Bool.and_assoc]

/-- A trace with no `ttsStarted` event is accepted from any flag. -/
theorem startedOnce_of_not_mem : ∀ (tr : List Ev) (b : Bool),
    Ev.ttsStarted ∉ tr → startedOnce b tr = true
  | [], _, _ => rfl
  | e :: tr, b, h => by
    rw [List.mem_cons, not_or] at h
    have he : ¬ e = Ev.ttsStarted := fun hh => h.1 hh.symm
    simp only [startedOnce, he, if_false, Bool.true_and]
    exact startedOnce_of_not_mem tr (flagStep b e) h.2

/-- Outcomes of the connect body: state other than the handle is preserved,
and the call either fails (handle cleared, `connectionError` fired) or
succeeds (handle open, initialization message sent). -/
theorem connectWebsocketBody_cases (s : Sys) :
    ((connectWebsocketBody s).1.st.started = s.st.started
      ∧ (connectWebsocketBody s).1.st.receive_task = s.st.receive_task
      ∧ (connectWebsocketBody s).1.st.cfg = s.st.cfg)
    ∧ (((connectWebsocketBody s).1.st.websocket = none
          ∧ ((connectWebsocketBody s).2
              = [Ev.wsConnectAttempt, Ev.connectionError ("connection error")]
            ∨ (connectWebsocketBody s).2
              = [Ev.wsConnectAttempt, Ev.connectionError ("send error")]))
        ∨ ((connectWebsocketBody s).1.st.websocket = some ⟨WsState.OPEN⟩
          ∧ (connectWebsocketBody s).2
              = [Ev.wsConnectAttempt, Ev.sent (Msg.init (initMsgOf s.st.cfg))])) := by
  rcases s with ⟨⟨c, ws, st, tk⟩, o⟩
  rcases o with _ | ⟨_ | _, _ | ⟨_ | _, o⟩⟩ <;>
    simp [connectWebsocketBody, takeO, initMsgOf]

/-- `_connect_websocket` is a no-op when the held websocket is `OPEN`. -/
theorem connectWebsocket_noop (s : Sys) (w : Ws) (hw : s.st.websocket = some w)
    (ho : w.state = WsState.OPEN) : connectWebsocket s = (s, []) := by
  unfold connectWebsocket
  rw [hw]
  simp [ho]

/-- `_connect_websocket` runs the connect body when no open websocket is
held. -/
theorem connectWebsocket_body_eq (s : Sys)
    (h : ∀ w, s.st.websocket = some w → ¬ w.state = WsState.OPEN) :
    connectWebsocket s = connectWebsocketBody s := by
  unfold connectWebsocket
  rcases hw : s.st.websocket with _ | w
  · rfl
  · simp [h w hw]

/-- Outcomes of `_connect_websocket`: a no-op when already open, otherwise
the connect body's outcomes. -/
theorem connectWebsocket_cases (s : Sys) :
    ((connectWebsocket s).1.st.started = s.st.started
      ∧ (connectWebsocket s).1.st.receive_task = s.st.receive_task
      ∧ (connectWebsocket s).1.st.cfg = s.st.cfg)
    ∧ (connectWebsocket s = (s, [])
        ∨ ((connectWebsocket s).1.st.websocket = none
            ∧ ((connectWebsocket s).2
                = [Ev.wsConnectAttempt, Ev.connectionError ("connection error")]
              ∨ (connectWebsocket s).2
                = [Ev.wsConnectAttempt, Ev.connectionError ("send error")]))
        ∨ ((connectWebsocket s).1.st.websocket = some ⟨WsState.OPEN⟩
            ∧ (connectWebsocket s).2
                = [Ev.wsConnectAttempt, Ev.sent (Msg.init (initMsgOf s.st.cfg))])) := by
  by_cases hopen : ∃ w, s.st.websocket = some w ∧ w.state = WsState.OPEN
  · obtain ⟨w, hw, ho⟩ := hopen
    rw [connectWebsocket_noop s w hw ho]
    exact ⟨⟨rfl, rfl, rfl⟩, Or.inl rfl⟩
  · rw [connectWebsocket_body_eq s (fun w hw ho => hopen ⟨w, hw, ho⟩)]
    have h := connectWebsocketBody_cases s
    exact ⟨h.1, Or.inr h.2⟩

/-- `_connect_websocket` traces are neutral for the `started` automaton and
contain none of C3's counted events and no send-error log. -/
theorem connectWebsocket_flag (s : Sys) (b : Bool) :
    flagRun b (connectWebsocket s).2 = b
    ∧ startedOnce b (connectWebsocket s).2 = true
    ∧ (connectWebsocket s).2.filter c3Filter = []
    ∧ Ev.sendErrorLogged ∉ (connectWebsocket s).2 := by
  rcases (connectWebsocket_cases s).2 with h | ⟨_, h | h⟩ | ⟨_, h⟩ <;>
    simp [h, flagRun, flagStep, startedOnce, c3Filter]

/-- `_connect` preserves `started` and the configuration. -/
theorem connectStep_state (s : Sys) :
    (connectStep s).1.st.started = s.st.started
    ∧ (connectStep s).1.st.cfg = s.st.cfg := by
  have h := (connectWebsocket_cases s).1
  unfold connectStep
  rcases hw : (connectWebsocket s).1.st.websocket with _ | w <;>
    rcases ht : (connectWebsocket s).1.st.receive_task with _ | u <;>
    simp [hw, ht, h.1, h.2.2]

/-- The `_connect` trace is the entry marker, the websocket trace, and
possibly a task creation. -/
theorem connectStep_tr (s : Sys) :
    (connectStep s).2 = Ev.connectCalled :: (connectWebsocket s).2
    ∨ (connectStep s).2 = Ev.connectCalled :: (connectWebsocket s).2 ++ [Ev.taskCreated] := by
  unfold connectStep
  rcases hw : (connectWebsocket s).1.st.websocket with _ | w <;>
    rcases ht : (connectWebsocket s).1.st.receive_task with _ | u <;>
    simp [hw, ht]

/-- `_connect` traces are neutral for the `started` automaton, contain
exactly one C3-counted event (`connectCalled`), and no send-error log. -/
theorem connectStep_flag (s : Sys) (b : Bool) :
    flagRun b (connectStep s).2 = b
    ∧ startedOnce b (connectStep s).2 = true
    ∧ (connectStep s).2.filter c3Filter = [Ev.connectCalled]
    ∧ Ev.sendErrorLogged ∉ (connectStep s).2 := by
  have hcw := connectWebsocket_flag s b
  rcases connectStep_tr s with h | h <;>
    simp [h, flagRun_cons, flagRun_append, flagRun_nil, startedOnce_append, startedOnce,
      flagStep, c3Filter, hcw.1, hcw.2.1, hcw.2.2.1, hcw.2.2.2]

/-- `_disconnect_websocket` unconditionally clears `started` and the handle,
leaving configuration and task untouched. -/
theorem disconnectWebsocket_state (s : Sys) :
    (disconnectWebsocket s).1.st = ⟨s.st.cfg, none, false, s.st.receive_task⟩ := by
  rcases s with ⟨⟨c, ws, st, tk⟩, o⟩
  rcases ws with _ | w <;> rcases o with _ | ⟨_ | _, o⟩ <;>
    simp [disconnectWebsocket, takeO]

/-- `_disconnect` always leaves the cleanly torn-down state. -/
theorem disconnectStep_state (s : Sys) :
    (disconnectStep s).1.st = ⟨s.st.cfg, none, false, none⟩ := by
  unfold disconnectStep
  rcases ht : s.st.receive_task with _ | u <;>
    simp [ht, disconnectWebsocket_state]

/-- `_disconnect` trace facts: the automaton flag ends `false`, no
`ttsStarted` is emitted, exactly one C3-counted event (`disconnectCalled`)
occurs, no send-error log, metrics are stopped, and the close is attempted
whenever a handle was present. -/
theorem disconnectStep_facts (s : Sys) (b : Bool) :
    flagRun b (disconnectStep s).2 = false
    ∧ startedOnce b (disconnectStep s).2 = true
    ∧ (disconnectStep s).2.filter c3Filter = [Ev.disconnectCalled]
    ∧ Ev.sendErrorLogged ∉ (disconnectStep s).2
    ∧ Ev.stopAllMetricsEv ∈ (disconnectStep s).2
    ∧ (s.st.websocket = none ∨ Ev.closeCalled ∈ (disconnectStep s).2) := by
  rcases s with ⟨⟨c, ws, st, tk⟩, o⟩
  rcases ws with _ | w <;> rcases tk with _ | u <;> rcases o with _ | ⟨_ | _, o⟩ <;>
    simp [disconnectStep, disconnectWebsocket, takeO, flagRun, flagStep, startedOnce,
      c3Filter]

/-- Facts about the inner send sequence of `run_tts`: the websocket, task
and configuration are untouched; success implies a held websocket and an
active turn; the trace moves the `started` automaton exactly as the state's
flag, never double-emits `ttsStarted`, contains none of C3's counted events
and no send-error log; and on success the sends are exactly the text-append
followed by the flush. -/
theorem runTTSInner_bundle (t : String) (s : Sys) :
    (runTTSInner t s).1.st.websocket = s.st.websocket
    ∧ (runTTSInner t s).1.st.receive_task = s.st.receive_task
    ∧ (runTTSInner t s).1.st.cfg = s.st.cfg
    ∧ ((runTTSInner t s).2.2 = none →
        (runTTSInner t s).1.st.started = true ∧ s.st.websocket.isSome = true)
    ∧ flagRun s.st.started (runTTSInner t s).2.1 = (runTTSInner t s).1.st.started
    ∧ startedOnce s.st.started (runTTSInner t s).2.1 = true
    ∧ (runTTSInner t s).2.1.filter c3Filter = []
    ∧ Ev.sendErrorLogged ∉ (runTTSInner t s).2.1
    ∧ ((runTTSInner t s).2.2 = none →
        (runTTSInner t s).2.1.filter isSendEv = [Ev.sent (Msg.text t), Ev.sent Msg.flush]) := by
  rcases s with ⟨⟨c, ws, st, tk⟩, o⟩
  rcases ws with _ | w
  · cases st <;>
      rcases o with _ | ⟨_ | _, o⟩ <;>
      simp [runTTSInner, startedPhase, getWsSend, usagePhase, takeO,
        flagRun, flagStep, startedOnce, c3Filter, isSendEv]
  · cases st <;>
      rcases o with _ | ⟨_ | _, _ | ⟨_ | _, _ | ⟨_ | _, _ | ⟨_ | _, o⟩⟩⟩⟩ <;>
      simp [runTTSInner, startedPhase, getWsSend, usagePhase, takeO,
        flagRun, flagStep, startedOnce, c3Filter, isSendEv]

/-! ## Session invariant lemmas -/

/-- `_connect_websocket` preserves the session invariant. -/
theorem connectWebsocket_inv (s : Sys) (h : sessionInvFull s.st = true) :
    sessionInvFull (connectWebsocket s).1.st = true := by
  rcases hw : s.st.websocket with _ | w
  · have hbody : connectWebsocket s = connectWebsocketBody s := by
      apply connectWebsocket_body_eq
      intro w hw2
      rw [hw] at hw2
      exact absurd hw2 (by simp)
    simp only [sessionInvFull, hw] at h
    simp only [Option.isSome_none, Bool.or_false, Bool.and_true, Bool.and_eq_true] at h
    have hb := connectWebsocketBody_cases s
    rw [hbody]
    rcases hb.2 with ⟨hwn, _⟩ | ⟨hwo, _⟩
    · simp [sessionInvFull, hwn, hb.1.1, hb.1.2.1, h.1, h.2]
    · simp [sessionInvFull, hwo]
  · have ho : w.state = WsState.OPEN := by
      simp only [sessionInvFull, hw, Bool.and_eq_true, decide_eq_true_eq] at h
      exact h.2
    rw [connectWebsocket_noop s w hw ho]
    exact h

/-- `_connect` preserves the session invariant. -/
theorem connectStep_inv (s : Sys) (h : sessionInvFull s.st = true) :
    sessionInvFull (connectStep s).1.st = true := by
  have h1 := connectWebsocket_inv s h
  unfold connectStep
  rcases hw : (connectWebsocket s).1.st.websocket with _ | w <;>
    rcases ht : (connectWebsocket s).1.st.receive_task with _ | u <;>
    simp_all [sessionInvFull, hw, ht]

/-- `_disconnect` establishes the session invariant from any state. -/
theorem disconnectStep_inv (s : Sys) : sessionInvFull (disconnectStep s).1.st = true := by
  rw [disconnectStep_state]
  simp [sessionInvFull]

/-- `push_frame` preserves the session invariant. -/
theorem pushFrameStep_inv (f : PFrame) (s : Sys) (h : sessionInvFull s.st = true) :
    sessionInvFull (pushFrameStep f s).1.st = true := by
  rcases s with ⟨⟨c, ws, st, tk⟩, o⟩
  by_cases hf : f = PFrame.ttsStoppedF ∨ f = PFrame.startInterruptionF <;>
    rcases ws with _ | w <;>
    simp_all [pushFrameStep, sessionInvFull]

/-- The recovery path of `run_tts` (the send sequence with its handler)
preserves the session invariant. -/
theorem runTTSAfter_inv (t : String) (s1 : Sys) (h : sessionInvFull s1.st = true) :
    sessionInvFull (runTTSAfter t s1).1.st = true := by
  have hb := runTTSInner_bundle t s1
  unfold runTTSAfter
  rcases hi : runTTSInner t s1 with ⟨s2, t2, ex⟩
  rw [hi] at hb
  rcases ex with _ | e
  · have h4 := hb.2.2.2.1 rfl
    show sessionInvFull s2.st = true
    rcases hws : s1.st.websocket with _ | w
    · rw [hws] at h4
      simp at h4
    · have ho : w.state = WsState.OPEN := by
        simp only [sessionInvFull, hws, Bool.and_eq_true, decide_eq_true_eq] at h
        exact h.2
      have hw2 : s2.st.websocket = some w := by rw [hb.1, hws]
      simp [sessionInvFull, hw2, h4.1, ho]
  · show sessionInvFull (connectStep (disconnectStep s2).1).1.st = true
    exact connectStep_inv _ (disconnectStep_inv s2)

/-- The lazy reconnect of `run_tts` preserves the session invariant. -/
theorem reconnectIfNeeded_inv (s : Sys) (h : sessionInvFull s.st = true) :
    sessionInvFull (reconnectIfNeeded s).1.st = true := by
  unfold reconnectIfNeeded
  rcases hw : s.st.websocket with _ | w
  · exact connectStep_inv s h
  · by_cases hc : w.state = WsState.CLOSED <;> simp [hc]
    · exact connectStep_inv s h
    · exact h

/-- `run_tts` preserves the session invariant. -/
theorem runTTSStep_inv (t : String) (s : Sys) (h : sessionInvFull s.st = true) :
    sessionInvFull (runTTSStep t s).1.st = true := by
  simp only [runTTSStep]
  exact runTTSAfter_inv t _ (reconnectIfNeeded_inv s h)

/-- The receive loop's error branch preserves the session invariant. -/
theorem recvErrorStep_inv (s : Sys) (h : sessionInvFull s.st = true) :
    sessionInvFull (recvErrorStep s).1.st = true := by
  simp only [recvErrorStep]
  exact pushFrameStep_inv _ s h

/-- The receive loop's audio branch preserves the session invariant. -/
theorem recvAudioStep_inv (s : Sys) (h : sessionInvFull s.st = true) :
    sessionInvFull (recvAudioStep s).1.st = true := by
  simp only [recvAudioStep]
  exact pushFrameStep_inv _ s h

/-- Every session operation preserves the session invariant. -/
theorem opStep_inv (op : Op) (s : Sys) (h : sessionInvFull s.st = true) :
    sessionInvFull (opStep op s).1.st = true := by
  cases op with
  | connect => exact connectStep_inv s h
  | disconnect => exact disconnectStep_inv s
  | runTTS t => exact runTTSStep_inv t s h
  | pushFrame f => exact pushFrameStep_inv f s h
  | recvError => exact recvErrorStep_inv s h
  | recvAudio => exact recvAudioStep_inv s h

/-- The session invariant holds in every reachable state. -/
theorem runOps_inv : ∀ (ops : List Op) (s : Sys), sessionInvFull s.st = true →
    sessionInvFull (runOps ops s).1.st = true
  | [], s, h => by simpa [runOps] using h
  | op :: ops, s, h => by
    simp only [runOps]
    exact runOps_inv ops _ (opStep_inv op s h)

/-! ## `run_tts` trace composition lemmas -/

/-- The recovery path of `run_tts` is flag-synchronised: the automaton run
over its trace ends at the resulting `started` flag, and never double-emits
a turn-started event. -/
theorem runTTSAfter_flag (t : String) (s1 : Sys) :
    flagRun s1.st.started (runTTSAfter t s1).2 = (runTTSAfter t s1).1.st.started
    ∧ startedOnce s1.st.started (runTTSAfter t s1).2 = true := by
  have hb := runTTSInner_bundle t s1
  unfold runTTSAfter
  rcases hi : runTTSInner t s1 with ⟨s2, t2, ex⟩
  rw [hi] at hb
  rcases ex with _ | e
  · exact ⟨hb.2.2.2.2.1, hb.2.2.2.2.2.1⟩
  · have hflag2 : flagRun s1.st.started t2 = s2.st.started := hb.2.2.2.2.1
    have honce2 : startedOnce s1.st.started t2 = true := hb.2.2.2.2.2.1
    have hL : ∀ x : Bool, flagRun x [Ev.sendErrorLogged, Ev.ttsStopped] = x := fun x => rfl
    have hLo : ∀ x : Bool, startedOnce x [Ev.sendErrorLogged, Ev.ttsStopped] = true :=
      fun x => rfl
    have hds := disconnectStep_facts s2 s2.st.started
    have hcs := connectStep_flag (disconnectStep s2).1 false
    have hcst := connectStep_state (disconnectStep s2).1
    have hdst := disconnectStep_state s2
    constructor
    · simp only [flagRun_append, hflag2, hL, hds.1, hcs.1, hcst.1, hdst]
    · simp only [startedOnce_append, flagRun_append, hflag2, hL, hLo, honce2, hds.1,
        hds.2.1, hcs.1, hcs.2.1, Bool.and_self, Bool.true_and, Bool.and_true]

/-- On the recovery path, if the send-error log appears in the trace then
the C3-counted events are exactly one turn-stopped yield, then one
disconnect, then one reconnect attempt. -/
theorem runTTSAfter_c3 (t : String) (s1 : Sys)
    (hmem : Ev.sendErrorLogged ∈ (runTTSAfter t s1).2) :
    (runTTSAfter t s1).2.filter c3Filter
      = [Ev.ttsStopped, Ev.disconnectCalled, Ev.connectCalled] := by
  have hb := runTTSInner_bundle t s1
  unfold runTTSAfter at hmem ⊢
  rcases hi : runTTSInner t s1 with ⟨s2, t2, ex⟩
  rw [hi] at hb hmem
  rcases ex with _ | e
  · exact absurd hmem hb.2.2.2.2.2.2.2.1
  · have hds := disconnectStep_facts s2 false
    have hcs := connectStep_flag (disconnectStep s2).1 false
    simp [List.filter_append, hb.2.2.2.2.2.2.1, hds.2.2.1, hcs.2.2.1, c3Filter]

/-- The lazy-reconnect step of `run_tts` preserves the `started` flag, is
automaton-neutral and never logs a send error. -/
theorem reconnectIfNeeded_facts (s : Sys) (b : Bool) :
    (reconnectIfNeeded s).1.st.started = s.st.started
    ∧ flagRun b (reconnectIfNeeded s).2 = b
    ∧ startedOnce b (reconnectIfNeeded s).2 = true
    ∧ Ev.sendErrorLogged ∉ (reconnectIfNeeded s).2 := by
  unfold reconnectIfNeeded
  rcases hw : s.st.websocket with _ | w
  · exact ⟨(connectStep_state s).1, (connectStep_flag s b).1, (connectStep_flag s b).2.1,
      (connectStep_flag s b).2.2.2⟩
  · by_cases hc : w.state = WsState.CLOSED <;> simp only [hc, if_true, if_false]
    · exact ⟨(connectStep_state s).1, (connectStep_flag s b).1, (connectStep_flag s b).2.1,
        (connectStep_flag s b).2.2.2⟩
    · simp [flagRun, startedOnce]

/-- `run_tts` is flag-synchronised: the automaton run over its trace ends at
the resulting `started` flag, and it never double-emits a turn-started
event. -/
theorem runTTSStep_flag (t : String) (s : Sys) :
    flagRun s.st.started (runTTSStep t s).2 = (runTTSStep t s).1.st.started
    ∧ startedOnce s.st.started (runTTSStep t s).2 = true := by
  have h1 := reconnectIfNeeded_facts s s.st.started
  have hra := runTTSAfter_flag t (reconnectIfNeeded s).1
  rw [h1.1] at hra
  simp only [runTTSStep]
  constructor
  · rw [flagRun_append, h1.2.1, hra.1]
  · rw [startedOnce_append, h1.2.1]
    simp [h1.2.2.1, hra.2]

/-- Every session operation is flag-synchronised with the `started`
automaton and never double-emits a turn-started event. -/
theorem opStep_flag (op : Op) (s : Sys) :
    flagRun s.st.started (opStep op s).2 = (opStep op s).1.st.started
    ∧ startedOnce s.st.started (opStep op s).2 = true := by
  cases op with
  | connect =>
    simp only [opStep]
    refine ⟨?_, (connectStep_flag s s.st.started).2.1⟩
    rw [(connectStep_flag s s.st.started).1, (connectStep_state s).1]
  | disconnect =>
    simp only [opStep]
    refine ⟨?_, (disconnectStep_facts s s.st.started).2.1⟩
    simp [(disconnectStep_facts s s.st.started).1, disconnectStep_state]
  | runTTS t =>
    simp only [opStep]
    exact runTTSStep_flag t s
  | pushFrame f =>
    rcases f <;>
      simp [opStep, pushFrameStep, flagRun, flagStep, startedOnce]
  | recvError =>
    simp [opStep, recvErrorStep, pushFrameStep, flagRun, flagStep, startedOnce]
  | recvAudio =>
    simp [opStep, recvAudioStep, pushFrameStep, flagRun, flagStep, startedOnce]

/-- Every run of session operations is accepted by the `started` automaton
from the state's flag. -/
theorem runOps_flag : ∀ (ops : List Op) (s : Sys),
    flagRun s.st.started (runOps ops s).2 = (runOps ops s).1.st.started
    ∧ startedOnce s.st.started (runOps ops s).2 = true
  | [], s => by simp [runOps, flagRun, startedOnce]
  | op :: ops, s => by
    have h1 := opStep_flag op s
    have ih := runOps_flag ops (opStep op s).1
    simp only [runOps]
    constructor
    · rw [flagRun_append, h1.1, ih.1]
    · rw [startedOnce_append, h1.1]
      simp [h1.2, ih.2]

/-- Turn-started yields in a trace (claim C4). -/
def isStartedEv : Ev → Bool
  | Ev.ttsStarted => true
  | _ => false

/-! ## Session claims -/

/-- Claim C3: whenever the send sequence of `run_tts` fails on an
established open connection — at the TTFB metric, the text-append send, the
flush send or the usage metric — the call emits exactly one turn-stopped
yield, performs exactly one disconnect followed by exactly one reconnect
attempt, in that order (the C3-counted events of the trace are exactly
`[ttsStopped, disconnectCalled, connectCalled]`), and returns without
propagating: `runTTSStep` is total and the handler swallows the
exception. -/
theorem c3_send_failure_recovery (s : Sys) (t : String)
    (hw : s.st.websocket = some ⟨WsState.OPEN⟩)
    (hmem : Ev.sendErrorLogged ∈ (runTTSStep t s).2) :
    (runTTSStep t s).2.filter c3Filter
      = [Ev.ttsStopped, Ev.disconnectCalled, Ev.connectCalled] := by
  have hnc : reconnectIfNeeded s = (s, []) := by
    unfold reconnectIfNeeded
    rw [hw]
    simp
  simp only [runTTSStep, hnc, List.nil_append] at hmem ⊢
  exact runTTSAfter_c3 t s hmem

/-- Concrete configuration for witnesses. -/
def cfgW : Config := ⟨"key", "voice", "blizzard", 24000, some "en", "raw"⟩

/-- Connected idle session whose next primitive call fails. -/
def sysOpenFail : Sys := ⟨⟨cfgW, some ⟨WsState.OPEN⟩, false, some ()⟩, [true]⟩

/-- Connected idle session whose primitive calls all succeed. -/
def sysOpenSucc : Sys := ⟨⟨cfgW, some ⟨WsState.OPEN⟩, false, some ()⟩, []⟩

/-- Witness for C3: a TTFB-metric failure on a connected session. -/
theorem c3_send_failure_recovery_witness :
    (runTTSStep ("hi") sysOpenFail).2.filter c3Filter
      = [Ev.ttsStopped, Ev.disconnectCalled, Ev.connectCalled] :=
  c3_send_failure_recovery sysOpenFail ("hi") rfl (by decide)

/-- Claim C4: in every interleaving of session operations from a fresh
session, the trace is accepted by the automaton that allows a turn-started
event only while the flag is `false` (set by `ttsStarted`, cleared by the
disconnect `finally` and by pushing a stopped/interruption frame) — so a
turn-started event is emitted at most once between a `false → true`
transition and the next forced reset; pushing a turn-stopped or
start-interruption frame always forces `started` to `false`; and a
subsequent successful `run_tts` call on an open connection re-emits exactly
one turn-started event. -/
theorem c4_started_once :
    (∀ (c : Config) (o : List Bool) (ops : List Op),
        startedOnce false (runOps ops (initSys c o)).2 = true)
    ∧ (∀ s : Sys, (pushFrameStep PFrame.ttsStoppedF s).1.st.started = false
        ∧ (pushFrameStep PFrame.startInterruptionF s).1.st.started = false)
    ∧ (∀ (s : Sys) (t : String), s.st.started = false →
        s.st.websocket = some ⟨WsState.OPEN⟩ → s.oracle = [] →
        (runTTSStep t s).2.filter isStartedEv = [Ev.ttsStarted]) := by
  refine ⟨?_, ?_, ?_⟩
  · intro c o ops
    have h := (runOps_flag ops (initSys c o)).2
    simpa [initSys, initSession] using h
  · intro s
    constructor <;> simp [pushFrameStep]
  · intro s t hst hw ho
    rcases s with ⟨⟨c, ws, sd, tk⟩, o⟩
    simp only [] at hst hw ho
    subst hst hw ho
    simp [runTTSStep, reconnectIfNeeded, runTTSAfter, runTTSInner, startedPhase,
      getWsSend, usagePhase, takeO, isStartedEv]

/-- Witness for C4: a successful `run_tts` call on a connected session with
no active turn emits exactly one turn-started event. -/
theorem c4_started_once_witness :
    (runTTSStep ("hi") sysOpenSucc).2.filter isStartedEv = [Ev.ttsStarted] :=
  c4_started_once.2.2 sysOpenSucc ("hi") rfl rfl rfl

/-- Claim C6: in every state reachable by session operations from a fresh
session, the receive-task reference is non-none only while the websocket
handle is non-none, and `started` is true only while a connection is live;
moreover `_disconnect` and pushing a stopped/interruption frame always force
`started` back to `false`. -/
theorem c6_session_invariant :
    (∀ (c : Config) (o : List Bool) (ops : List Op),
        ((runOps ops (initSys c o)).1.st.receive_task.isNone
            || (runOps ops (initSys c o)).1.st.websocket.isSome) = true
        ∧ (!(runOps ops (initSys c o)).1.st.started
            || (runOps ops (initSys c o)).1.st.websocket.isSome) = true)
    ∧ (∀ s : Sys, (disconnectStep s).1.st.started = false)
    ∧ (∀ s : Sys, (pushFrameStep PFrame.ttsStoppedF s).1.st.started = false
        ∧ (pushFrameStep PFrame.startInterruptionF s).1.st.started = false) := by
  refine ⟨?_, ?_, ?_⟩
  · intro c o ops
    have h := runOps_inv ops (initSys c o) (by simp [initSys, initSession, sessionInvFull])
    simp only [sessionInvFull, Bool.and_eq_true] at h
    exact ⟨h.1.1, h.1.2⟩
  · intro s
    simp [disconnectStep_state]
  · intro s
    constructor <;> simp [pushFrameStep]

/-- Claim C7: `_connect_websocket` is a no-op when the connection is already
open; on a failure of the transport connect (first oracle entry `true`) or
of the initialization send (oracle `false :: true :: _`), the exception is
caught, the handle is cleared (the session stays disconnected) and the
`on_connection_error` event fires with the failure detail, with nothing
propagated (the embedding is total). -/
theorem c7_connect_noop_and_failure :
    (∀ (s : Sys) (w : Ws), s.st.websocket = some w → w.state = WsState.OPEN →
        connectWebsocket s = (s, []))
    ∧ (∀ (s : Sys) (o' : List Bool), s.st.websocket = none → s.oracle = true :: o' →
        (connectWebsocket s).1.st.websocket = none
        ∧ (connectWebsocket s).2
            = [Ev.wsConnectAttempt, Ev.connectionError ("connection error")])
    ∧ (∀ (s : Sys) (o' : List Bool), s.st.websocket = none →
        s.oracle = false :: true :: o' →
        (connectWebsocket s).1.st.websocket = none
        ∧ (connectWebsocket s).2
            = [Ev.wsConnectAttempt, Ev.connectionError ("send error")]) := by
  refine ⟨connectWebsocket_noop, ?_, ?_⟩ <;>
  · intro s o' hw ho
    rcases s with ⟨⟨c, ws, sd, tk⟩, o⟩
    simp only [] at hw ho
    subst hw ho
    simp [connectWebsocket, connectWebsocketBody, takeO]

/-- Witness for C7: the no-op on an open connection, and both failure
modes from a disconnected session. -/
theorem c7_connect_noop_and_failure_witness :
    connectWebsocket sysOpenSucc = (sysOpenSucc, [])
    ∧ (connectWebsocket (initSys cfgW [true])).2
        = [Ev.wsConnectAttempt, Ev.connectionError ("connection error")]
    ∧ (connectWebsocket (initSys cfgW [false, true])).2
        = [Ev.wsConnectAttempt, Ev.connectionError ("send error")] :=
  ⟨c7_connect_noop_and_failure.1 sysOpenSucc ⟨WsState.OPEN⟩ rfl rfl,
   (c7_connect_noop_and_failure.2.1 (initSys cfgW [true]) [] rfl rfl).2,
   (c7_connect_noop_and_failure.2.2 (initSys cfgW [false, true]) [] rfl rfl).2⟩

/-- Claim C8: `_disconnect` is idempotent: from any state and any close
outcome (the failure is swallowed), it stops all in-flight metrics, attempts
the transport close whenever a handle is present, and unconditionally leaves
`started = false`, the handle cleared and the task cancelled; a second call
from the resulting state, with any oracle, leaves the state unchanged. -/
theorem c8_disconnect_idempotent (s : Sys) :
    (disconnectStep s).1.st.started = false
    ∧ (disconnectStep s).1.st.websocket = none
    ∧ (disconnectStep s).1.st.receive_task = none
    ∧ Ev.stopAllMetricsEv ∈ (disconnectStep s).2
    ∧ (s.st.websocket = none ∨ Ev.closeCalled ∈ (disconnectStep s).2)
    ∧ (∀ o' : List Bool,
        (disconnectStep ⟨(disconnectStep s).1.st, o'⟩).1.st = (disconnectStep s).1.st) := by
  have hf := disconnectStep_facts s false
  refine ⟨?_, ?_, ?_, hf.2.2.2.2.1, hf.2.2.2.2.2, ?_⟩
  · simp [disconnectStep_state]
  · simp [disconnectStep_state]
  · simp [disconnectStep_state]
  · intro o'
    simp [disconnectStep_state]

/-- Claim C9: a successful `run_tts` send on an open connection consists of
exactly two transport messages in order — the text-append message carrying
the text, then the flush message — and a successful `_connect_websocket`
from a disconnected session sends exactly the single initialization message,
which carries exactly the credential, voice, format, sample-rate, language
and model fields. -/
theorem c9_wire_messages :
    (∀ (s : Sys) (t : String), s.st.websocket = some ⟨WsState.OPEN⟩ → s.oracle = [] →
        (runTTSStep t s).2.filter isSendEv = [Ev.sent (Msg.text t), Ev.sent Msg.flush])
    ∧ (∀ s : Sys, s.st.websocket = none → s.oracle = [] →
        (connectWebsocket s).2.filter isSendEv
          = [Ev.sent (Msg.init (initMsgOf s.st.cfg))]) := by
  constructor
  · intro s t hw ho
    rcases s with ⟨⟨c, ws, sd, tk⟩, o⟩
    simp only [] at hw ho
    subst hw ho
    cases sd <;>
      simp [runTTSStep, reconnectIfNeeded, runTTSAfter, runTTSInner, startedPhase,
        getWsSend, usagePhase, takeO, isSendEv]
  · intro s hw ho
    rcases s with ⟨⟨c, ws, sd, tk⟩, o⟩
    simp only [] at hw ho
    subst hw ho
    simp [connectWebsocket, connectWebsocketBody, takeO, isSendEv]

/-- Witness for C9: the two-message send and the single initialization
message at a concrete configuration. -/
theorem c9_wire_messages_witness :
    (runTTSStep ("hi") sysOpenSucc).2.filter isSendEv
        = [Ev.sent (Msg.text ("hi")), Ev.sent Msg.flush]
    ∧ (connectWebsocket (initSys cfgW [])).2.filter isSendEv
        = [Ev.sent (Msg.init (initMsgOf cfgW))] :=
  ⟨c9_wire_messages.1 sysOpenSucc ("hi") rfl rfl,
   c9_wire_messages.2 (initSys cfgW []) rfl rfl⟩

end Pipecat
